import Mathlib

/-!
Box cloud-storage adapter (`backends/cloud/box/boxstorage.cpp`).

A shallow embedding of `Cloud::Box::BoxStorage`.  Every method of the adapter
is a function on an explicit `World`: the configuration manager, the cloud
manager's username registry, the requests registered through `addRequest`,
and a trace of the observable effects (warnings, callback invocations,
`delete`s) in program order.  A C++ pointer that may be null is an `Option`.
-/

namespace Cloud
namespace Box

/-! ## JSON values (`common/formats/json.h`) -/

/-- Modelled from the spec: the JSON value model (`Common::JSONValue`) is an
external collaborator that is not part of the sources.  A value is null, a
string, a boolean, a floating-point number (kept as its bit pattern, never
read by the adapter), an integer number, an array or an object. -/
inductive JSONValue where
  | null
  | string (s : String)
  | bool (b : Bool)
  | number (bits : Nat)
  | integerNumber (n : Int)
  | array (items : List JSONValue)
  | object (members : List (String × JSONValue))

/-- Modelled from the spec: `Common::JSONObject`, a map from keys to JSON
values, kept as an association list. -/
abbrev JSONObject := List (String × JSONValue)

/-- Modelled from the spec: `JSONObject::contains(key)`. -/
def JSONObject.contains (o : JSONObject) (key : String) : Bool :=
  o.any (fun p => p.1 == key)

/-- Modelled from the spec: `JSONObject::getVal(key)`, the value stored under
`key` (a null pointer when there is none). -/
def JSONObject.getVal (o : JSONObject) (key : String) : Option JSONValue :=
  (o.find? (fun p => p.1 == key)).map (fun p => p.2)

/-- Modelled from the spec: `JSONObject::setVal(key, value)`, which replaces
the value of an existing key and adds the key otherwise. -/
def JSONObject.setVal (o : JSONObject) (key : String) (value : JSONValue) : JSONObject :=
  if JSONObject.contains o key then
    o.map (fun p => if p.1 == key then (key, value) else p)
  else
    o ++ [(key, value)]

/-- Modelled from the spec: `JSONValue::isObject()`. -/
def JSONValue.isObject : JSONValue → Bool
  | .object _ => true
  | _ => false

/-- Modelled from the spec: `JSONValue::isString()`. -/
def JSONValue.isString : JSONValue → Bool
  | .string _ => true
  | _ => false

/-- Modelled from the spec: `JSONValue::isIntegerNumber()`. -/
def JSONValue.isIntegerNumber : JSONValue → Bool
  | .integerNumber _ => true
  | _ => false

/-- Modelled from the spec: `JSONValue::asObject()`; the adapter calls it
only after `jsonIsObject` succeeded. -/
def JSONValue.asObject : JSONValue → JSONObject
  | .object o => o
  | _ => []

/-- Modelled from the spec: `JSONValue::asString()`; the adapter calls it
only after `jsonContainsString` succeeded. -/
def JSONValue.asString : JSONValue → String
  | .string s => s
  | _ => ""

/-- Modelled from the spec: `JSONValue::asIntegerNumber()`; the adapter calls
it only after `jsonContainsIntegerNumber` succeeded. -/
def JSONValue.asIntegerNumber : JSONValue → Int
  | .integerNumber n => n
  | _ => 0

/-- The expression `jsonInfo.getVal(key)->asString()`. -/
def getString (o : JSONObject) (key : String) : String :=
  match JSONObject.getVal o key with
  | some v => v.asString
  | none => ""

/-- The expression `jsonInfo.getVal(key)->asIntegerNumber()`. -/
def getIntegerNumber (o : JSONObject) (key : String) : Int :=
  match JSONObject.getVal o key with
  | some v => v.asIntegerNumber
  | none => 0

/-- Conversion of a signed integer to `uint64`, as the assignment to the
`uint64` locals `quotaUsed` and `quotaAllocated` performs it. -/
def toUint64 (n : Int) : Nat :=
  (n % (2 ^ 64 : Int)).toNat

/-! ## Callbacks, responses and the effect trace -/

/-- A callback object handed to the adapter (known by its address), or the
error-printing callback the storage makes itself
(`getErrorPrintingCallback()`). -/
inductive Callback where
  | user (addr : Nat)
  | errorPrinting
  deriving DecidableEq, Repr

abbrev BoolCallback := Option Callback
abbrev StorageInfoCallback := Option Callback
abbrev ErrorCallback := Option Callback
abbrev NetworkReadStreamCallback := Option Callback

/-- The record `Cloud::StorageInfo(uid, name, email, used, allocated)`; the
two quotas are `uint64`. -/
structure StorageInfo where
  uid : String
  name : String
  email : String
  quotaUsed : Nat
  quotaAllocated : Nat
  deriving DecidableEq, Repr

/-- The record `Networking::Response<T>(request, value)`; `request` is the
address of the request that produced the value, or null. -/
structure Response (α : Type) where
  request : Option Nat
  value : α
  deriving DecidableEq, Repr

/-- The record `Networking::ErrorResponse(request, interrupted, failed,
response, httpResponseCode)`. -/
structure ErrorResponse where
  request : Option Nat
  interrupted : Bool
  failed : Bool
  response : String
  httpResponseCode : Int
  deriving DecidableEq, Repr

/-- The object `Networking::NetworkReadStream(url, headersList, postFields)`:
a read stream opened on `url` with the given header list. -/
structure NetworkReadStream where
  url : String
  headersList : List String
  postFields : String
  deriving DecidableEq, Repr

abbrev BoolResponse := Response Bool
abbrev StorageInfoResponse := Response StorageInfo
abbrev NetworkReadStreamResponse := Response NetworkReadStream

/-- The JSON response handed to a completion handler; `value` may be null. -/
structure JsonResponse where
  request : Option Nat
  value : Option JSONValue

/-- One observable effect of the adapter. -/
inductive Event where
  /-- a call of `warning(msg)` in the adapter itself -/
  | warning (msg : String)
  /-- the diagnostic of a failed `CurlJsonRequest::jsonIsObject` or
  `jsonContains...` check, with its context string -/
  | jsonWarning (warningPrefix : String)
  /-- the construction `new Networking::NetworkReadStream(...)`, which opens
  the stream -/
  | openStream (stream : NetworkReadStream)
  /-- the call `(*cb)(BoolResponse ...)` -/
  | callBool (cb : Callback) (r : BoolResponse)
  /-- the call `(*cb)(StorageInfoResponse ...)` -/
  | callStorageInfo (cb : Callback) (r : StorageInfoResponse)
  /-- the call `(*cb)(NetworkReadStreamResponse ...)` -/
  | callStream (cb : Callback) (r : NetworkReadStreamResponse)
  /-- the call `(*cb)(ErrorResponse ...)` -/
  | callError (cb : Callback) (r : ErrorResponse)
  /-- the statement `delete cb` on a non-null callback -/
  | deleteCallback (cb : Callback)
  /-- the statement `delete json` -/
  | deleteJson
  deriving DecidableEq, Repr

/-- Whether the event invokes a completion (success) callback. -/
def Event.isCompletionCall : Event → Bool
  | .callBool _ _ => true
  | .callStorageInfo _ _ => true
  | .callStream _ _ => true
  | _ => false

/-- Whether the event invokes an error callback. -/
def Event.isErrorCall : Event → Bool
  | .callError _ _ => true
  | _ => false

/-- The completion-callback invocations of a trace, in order. -/
def completionCalls (t : List Event) : List Event :=
  t.filter Event.isCompletionCall

/-- The error-callback invocations of a trace, in order. -/
def errorCalls (t : List Event) : List Event :=
  t.filter Event.isErrorCall

/-! ## The environment of the adapter -/

/-- Modelled from the spec: a configuration domain (the key-value store of
one domain of `Common::ConfigManager`, which is not part of the sources). -/
abbrev Domain := String → Option String

/-- Modelled from the spec: the configuration manager `ConfMan`, one
key-value store for each configuration domain. -/
structure ConfigManager where
  domains : String → Domain

/-- Modelled from the spec: the name `ConfMan.kCloudDomain` of the
configuration domain that holds the cloud storages' settings. -/
def kCloudDomain : String := "cloud"

/-- Modelled from the spec: `ConfMan.hasKey(key, domName)`. -/
def ConfigManager.hasKey (c : ConfigManager) (key domName : String) : Bool :=
  (c.domains domName key).isSome

/-- Modelled from the spec: `ConfMan.get(key, domName)`, the stored value
(the empty string for a key that is not there). -/
def ConfigManager.get (c : ConfigManager) (key domName : String) : String :=
  (c.domains domName key).getD ""

/-- Modelled from the spec: `ConfMan.set(key, value, domName)`. -/
def ConfigManager.set (c : ConfigManager) (key value domName : String) : ConfigManager :=
  { domains := fun d => if d = domName then (fun k => if k = key then some value else c.domains d k)
                        else c.domains d }

/-- Modelled from the spec: `ConfMan.removeKey(key, domName)`. -/
def ConfigManager.removeKey (c : ConfigManager) (key domName : String) : ConfigManager :=
  { domains := fun d => if d = domName then (fun k => if k = key then none else c.domains d k)
                        else c.domains d }

/-- The identities of the cloud providers (`Cloud::StorageID`). -/
inductive StorageID where
  | kStorageNoneId
  | kStorageDropboxId
  | kStorageOneDriveId
  | kStorageGoogleDriveId
  | kStorageBoxId
  deriving DecidableEq, Repr

/-- Modelled from the spec: the process-wide naming registry of the cloud
manager `CloudMan`, one published username for each provider identity. -/
structure CloudManager where
  usernames : StorageID → String

/-- Modelled from the spec: `CloudMan.setStorageUsername(index, name)`
publishes `name` under the provider identity `index`. -/
def CloudManager.setStorageUsername (c : CloudManager) (index : StorageID) (name : String) :
    CloudManager :=
  { usernames := fun i => if i = index then name else c.usernames i }

/-- The completion handler of a JSON request: the `Common::CallbackBridge`
that binds one of the adapter's inner callbacks to the caller's callback. -/
inductive JsonCallback where
  | infoBridge (outerCallback : StorageInfoCallback)
  | createDirectoryBridge (outerCallback : BoolCallback)
  deriving DecidableEq, Repr

/-- Modelled from the spec: the token-refreshing JSON request
(`BoxTokenRefresher`, a `Networking::CurlJsonRequest`): the completion
handler, the error callback, the URL, the headers and the POST body. -/
structure CurlJsonRequest where
  jsonCallback : JsonCallback
  errorCallback : ErrorCallback
  url : String
  headers : List String
  postFields : String
  deriving DecidableEq, Repr

/-- Modelled from the spec: the constructor
`BoxTokenRefresher(parent, callback, errorCallback, url)`, a request with no
header and no body yet. -/
def BoxTokenRefresher (callback : JsonCallback) (ecb : ErrorCallback) (url : String) :
    CurlJsonRequest :=
  { jsonCallback := callback, errorCallback := ecb, url := url, headers := [], postFields := "" }

/-- Modelled from the spec: `request->addHeader(header)`. -/
def CurlJsonRequest.addHeader (r : CurlJsonRequest) (header : String) : CurlJsonRequest :=
  { r with headers := r.headers ++ [header] }

/-- Modelled from the spec: `request->addPostField(keyValuePair)`, which sets
the body of a request that has none and appends `&keyValuePair` otherwise. -/
def CurlJsonRequest.addPostField (r : CurlJsonRequest) (keyValuePair : String) : CurlJsonRequest :=
  { r with postFields := if r.postFields = "" then keyValuePair
                         else r.postFields ++ "&" ++ keyValuePair }

/-- Everything the adapter reads or changes besides its own fields. -/
structure World where
  /-- the configuration manager `ConfMan` -/
  confMan : ConfigManager
  /-- the cloud manager `CloudMan` -/
  cloudMan : CloudManager
  /-- the requests registered with the dispatcher through `addRequest` -/
  requests : List CurlJsonRequest
  /-- the effects so far, oldest first -/
  trace : List Event

/-- Record one effect. -/
def World.emit (w : World) (e : Event) : World :=
  { w with trace := w.trace ++ [e] }

/-- The effects recorded in `w2` after the state `w1`. -/
def World.since (w2 w1 : World) : List Event :=
  w2.trace.drop w1.trace.length

/-- The statement `delete cb`: nothing for a null pointer. -/
def deleteCallback (cb : Option Callback) (w : World) : World :=
  match cb with
  | some c => w.emit (Event.deleteCallback c)
  | none => w

/-- Modelled from the spec: `Storage::addRequest(request)` hands the request
to the dispatcher and returns its handle. -/
def addRequest (request : CurlJsonRequest) (w : World) : Option CurlJsonRequest × World :=
  (some request, { w with requests := w.requests ++ [request] })

/-- Modelled from the spec: `CurlJsonRequest::jsonIsObject(item, prefix)`
holds for an object and reports a decode error with the context string for
anything else. -/
def jsonIsObject (item : JSONValue) (warningPrefix : String) (w : World) : Bool × World :=
  if item.isObject then (true, w) else (false, w.emit (Event.jsonWarning warningPrefix))

/-- Modelled from the spec: `CurlJsonRequest::jsonContainsString(item, key,
prefix)` holds when `item` has a string under `key` and reports a decode
error with the context string otherwise. -/
def jsonContainsString (item : JSONObject) (key warningPrefix : String) (w : World) :
    Bool × World :=
  match JSONObject.getVal item key with
  | some v => if v.isString then (true, w) else (false, w.emit (Event.jsonWarning warningPrefix))
  | none => (false, w.emit (Event.jsonWarning warningPrefix))

/-- Modelled from the spec: `CurlJsonRequest::jsonContainsIntegerNumber(item,
key, prefix)` holds when `item` has an integer number under `key` and reports
a decode error with the context string otherwise. -/
def jsonContainsIntegerNumber (item : JSONObject) (key warningPrefix : String) (w : World) :
    Bool × World :=
  match JSONObject.getVal item key with
  | some v =>
    if v.isIntegerNumber then (true, w) else (false, w.emit (Event.jsonWarning warningPrefix))
  | none => (false, w.emit (Event.jsonWarning warningPrefix))

/-! ## The adapter -/

def BOX_API_FOLDERS : String := "https://api.box.com/2.0/folders"

/-- The C string that `s.c_str()` hands to a reader of `const char *`: the
characters of `s` before its first NUL character. -/
def c_str (s : String) : String :=
  String.mk (s.data.takeWhile (fun c => c != Char.ofNat 0))

/-- The macro `BOX_API_FILES_CONTENT`, `"https://api.box.com/2.0/files/%s/content"`,
as `Common::String::format` fills it in: `%s` is replaced by the C string
argument, read up to its terminating NUL. -/
def BOX_API_FILES_CONTENT (arg : String) : String :=
  "https://api.box.com/2.0/files/" ++ c_str arg ++ "/content"

def BOX_API_USERS_ME : String := "https://api.box.com/2.0/users/me"

/-- The fields of `BoxStorage` (inherited from `BaseStorage`): access token,
refresh token, enabled flag. -/
structure BoxStorage where
  _token : String
  _refreshToken : String
  _isEnabled : Bool
  deriving DecidableEq, Repr

/-- Modelled from the spec: `BaseStorage::accessToken()`, the current access
token. -/
def BoxStorage.accessToken (self : BoxStorage) : String := self._token

/-- Modelled from the spec: `BaseStorage::saveIsEnabledFlag(keyPrefix)`
persists the enabled flag under its own key of the cloud domain. -/
def BoxStorage.saveIsEnabledFlag (self : BoxStorage) (keyPrefix : String) (w : World) : World :=
  let value := if self._isEnabled then "true" else "false"
  { w with confMan := ConfigManager.set w.confMan (keyPrefix ++ "enabled") value kCloudDomain }

/-- Modelled from the spec: `BaseStorage::loadIsEnabledFlag(keyPrefix)`
restores the enabled flag; a flag that was never saved is off. -/
def loadIsEnabledFlag (keyPrefix : String) (w : World) : Bool :=
  if !ConfigManager.hasKey w.confMan (keyPrefix ++ "enabled") kCloudDomain then false
  else ConfigManager.get w.confMan (keyPrefix ++ "enabled") kCloudDomain == "true"

/-- Modelled from the spec: `BaseStorage::removeIsEnabledFlag(keyPrefix)`
erases the enabled flag. -/
def removeIsEnabledFlag (keyPrefix : String) (w : World) : World :=
  { w with confMan := ConfigManager.removeKey w.confMan (keyPrefix ++ "enabled") kCloudDomain }

/-- The method `BoxStorage::saveConfig(keyPrefix)`. -/
def BoxStorage.saveConfig (self : BoxStorage) (keyPrefix : String) (w : World) : World :=
  let w := { w with confMan :=
    ConfigManager.set w.confMan (keyPrefix ++ "access_token") self._token kCloudDomain }
  let w := { w with confMan :=
    ConfigManager.set w.confMan (keyPrefix ++ "refresh_token") self._refreshToken kCloudDomain }
  self.saveIsEnabledFlag keyPrefix w

/-- The method `BoxStorage::infoInnerCallback(outerCallback, response)`. -/
def infoInnerCallback (outerCallback : StorageInfoCallback) (response : JsonResponse)
    (w : World) : World :=
  match response.value with
  | none =>
    let w := w.emit (Event.warning "BoxStorage::infoInnerCallback: NULL passed instead of JSON")
    deleteCallback outerCallback w
  | some json =>
    let (isObject, w) := jsonIsObject json "BoxStorage::infoInnerCallback" w
    if !isObject then
      let w := w.emit Event.deleteJson
      deleteCallback outerCallback w
    else
      let jsonInfo := json.asObject
      let (hasId, w) := jsonContainsString jsonInfo "id" "BoxStorage::infoInnerCallback" w
      let uid := if hasId then getString jsonInfo "id" else ""
      let (hasName, w) := jsonContainsString jsonInfo "name" "BoxStorage::infoInnerCallback" w
      let displayName := if hasName then getString jsonInfo "name" else ""
      let (hasLogin, w) := jsonContainsString jsonInfo "login" "BoxStorage::infoInnerCallback" w
      let email := if hasLogin then getString jsonInfo "login" else ""
      let (hasAmount, w) :=
        jsonContainsIntegerNumber jsonInfo "space_amount" "BoxStorage::infoInnerCallback" w
      let quotaAllocated := if hasAmount then toUint64 (getIntegerNumber jsonInfo "space_amount") else 0
      let (hasUsed, w) :=
        jsonContainsIntegerNumber jsonInfo "space_used" "BoxStorage::infoInnerCallback" w
      let quotaUsed := if hasUsed then toUint64 (getIntegerNumber jsonInfo "space_used") else 0
      let username := email
      let username := if username == "" then displayName else username
      let username := if username == "" then uid else username
      let w := { w with cloudMan := w.cloudMan.setStorageUsername StorageID.kStorageBoxId username }
      let w :=
        match outerCallback with
        | some cb =>
          let w := w.emit (Event.callStorageInfo cb
            { request := none,
              value := { uid := uid, name := displayName, email := email,
                         quotaUsed := quotaUsed, quotaAllocated := quotaAllocated } })
          w.emit (Event.deleteCallback cb)
        | none => w
      w.emit Event.deleteJson

/-- The method `BoxStorage::createDirectoryInnerCallback(outerCallback, response)`. -/
def createDirectoryInnerCallback (outerCallback : BoolCallback) (response : JsonResponse)
    (w : World) : World :=
  match response.value with
  | none =>
    let w := w.emit
      (Event.warning "BoxStorage::createDirectoryInnerCallback: NULL passed instead of JSON")
    deleteCallback outerCallback w
  | some json =>
    let w :=
      match outerCallback with
      | some cb =>
        let (isObject, w) := jsonIsObject json "BoxStorage::createDirectoryInnerCallback" w
        let w :=
          if isObject then
            let jsonInfo := json.asObject
            w.emit (Event.callBool cb
              { request := none, value := JSONObject.contains jsonInfo "id" })
          else
            w.emit (Event.callBool cb { request := none, value := false })
        w.emit (Event.deleteCallback cb)
      | none => w
    w.emit Event.deleteJson

/-- The call of a request's completion handler on a response: the
`CallbackBridge` runs the inner callback it was made for, with the caller's
callback it carries. -/
def JsonCallback.call (cb : JsonCallback) (response : JsonResponse) (w : World) : World :=
  match cb with
  | .infoBridge outerCallback => infoInnerCallback outerCallback response w
  | .createDirectoryBridge outerCallback =>
    createDirectoryInnerCallback outerCallback response w

/-- The method `BoxStorage::createDirectoryWithParentId(parentId, directoryName,
callback, errorCallback)`; `stringify` is `Common::JSON::stringify`, the
serialiser of the JSON library. -/
def BoxStorage.createDirectoryWithParentId (stringify : JSONValue → String) (self : BoxStorage)
    (parentId directoryName : String) (callback : BoolCallback) (errorCallback : ErrorCallback)
    (w : World) : Option CurlJsonRequest × World :=
  let errorCallback :=
    match errorCallback with
    | none => some Callback.errorPrinting
    | some e => some e
  let url := BOX_API_FOLDERS
  let innerCallback := JsonCallback.createDirectoryBridge callback
  let request := BoxTokenRefresher innerCallback errorCallback (c_str url)
  let request := request.addHeader ("Authorization: Bearer " ++ self.accessToken)
  let request := request.addHeader "Content-Type: application/json"
  let parentObject : JSONObject := []
  let parentObject := JSONObject.setVal parentObject "id" (JSONValue.string parentId)
  let jsonRequestParameters : JSONObject := []
  let jsonRequestParameters :=
    JSONObject.setVal jsonRequestParameters "name" (JSONValue.string directoryName)
  let jsonRequestParameters :=
    JSONObject.setVal jsonRequestParameters "parent" (JSONValue.object parentObject)
  let value := JSONValue.object jsonRequestParameters
  let request := request.addPostField (stringify value)
  addRequest request w

/-- The method `BoxStorage::streamFileById(id, callback, errorCallback)`. -/
def BoxStorage.streamFileById (self : BoxStorage) (id : String)
    (callback : NetworkReadStreamCallback) (errorCallback : ErrorCallback) (w : World) :
    Option CurlJsonRequest × World :=
  let w :=
    match callback with
    | some cb =>
      let url := BOX_API_FILES_CONTENT (c_str id)
      let header := "Authorization: Bearer " ++ self._token
      let headersList := [c_str header]
      let stream : NetworkReadStream :=
        { url := c_str url, headersList := headersList, postFields := "" }
      let w := w.emit (Event.openStream stream)
      w.emit (Event.callStream cb { request := none, value := stream })
    | none => w
  let w := deleteCallback callback w
  let w := deleteCallback errorCallback w
  (none, w)

/-- The method `BoxStorage::info(callback, errorCallback)`. -/
def BoxStorage.info (self : BoxStorage) (callback : StorageInfoCallback)
    (errorCallback : ErrorCallback) (w : World) : Option CurlJsonRequest × World :=
  let innerCallback := JsonCallback.infoBridge callback
  let request := BoxTokenRefresher innerCallback errorCallback BOX_API_USERS_ME
  let request := request.addHeader ("Authorization: Bearer " ++ self._token)
  addRequest request w

/-- The static method `BoxStorage::loadFromConfig(keyPrefix)`; a null result
is `none`. -/
def loadFromConfig (keyPrefix : String) (w : World) : Option BoxStorage × World :=
  if !ConfigManager.hasKey w.confMan (keyPrefix ++ "access_token") kCloudDomain then
    (none, w.emit (Event.warning "BoxStorage: no access_token found"))
  else if !ConfigManager.hasKey w.confMan (keyPrefix ++ "refresh_token") kCloudDomain then
    (none, w.emit (Event.warning "BoxStorage: no refresh_token found"))
  else
    let accessToken := ConfigManager.get w.confMan (keyPrefix ++ "access_token") kCloudDomain
    let refreshToken := ConfigManager.get w.confMan (keyPrefix ++ "refresh_token") kCloudDomain
    (some { _token := accessToken, _refreshToken := refreshToken,
            _isEnabled := loadIsEnabledFlag keyPrefix w }, w)

/-- The static method `BoxStorage::removeFromConfig(keyPrefix)`. -/
def removeFromConfig (keyPrefix : String) (w : World) : World :=
  let w := { w with confMan :=
    ConfigManager.removeKey w.confMan (keyPrefix ++ "access_token") kCloudDomain }
  let w := { w with confMan :=
    ConfigManager.removeKey w.confMan (keyPrefix ++ "refresh_token") kCloudDomain }
  removeIsEnabledFlag keyPrefix w

/-! ## Concrete states used in the examples -/

/-- A world with an empty configuration, no published username, no request
and no effect yet. -/
def World.empty : World :=
  { confMan := { domains := fun _ _ => none },
    cloudMan := { usernames := fun _ => "" },
    requests := [],
    trace := [] }

/-- The account response of the specification's example:
`{"id":"1","name":"A","login":"a@x.com","space_amount":100,"space_used":40}`. -/
def exampleInfoJson : JSONObject :=
  [("id", JSONValue.string "1"), ("name", JSONValue.string "A"),
   ("login", JSONValue.string "a@x.com"),
   ("space_amount", JSONValue.integerNumber 100), ("space_used", JSONValue.integerNumber 40)]

/-- An adapter with the tokens `tok` and `ref`, enabled. -/
def exampleStorage : BoxStorage :=
  { _token := "tok", _refreshToken := "ref", _isEnabled := true }

/-! ## Vocabulary of the specification -/

/-- The string the specification reads under `key`: a key that is missing or
whose value is not a string counts as the empty string. -/
def stringAt (o : JSONObject) (key : String) : String :=
  match JSONObject.getVal o key with
  | some (JSONValue.string s) => s
  | _ => ""

/-- The quota the adapter reads under `key`: the integer number stored there,
converted to `uint64`; a key that is missing or whose value is not an integer
number counts as zero. -/
def quotaAt (o : JSONObject) (key : String) : Nat :=
  match JSONObject.getVal o key with
  | some (JSONValue.integerNumber n) => toUint64 n
  | _ => 0

/-- Whether `o` has a string under `key`. -/
def hasString (o : JSONObject) (key : String) : Bool :=
  match JSONObject.getVal o key with
  | some (JSONValue.string _) => true
  | _ => false

/-- Whether `o` has an integer number under `key`. -/
def hasIntegerNumber (o : JSONObject) (key : String) : Bool :=
  match JSONObject.getVal o key with
  | some (JSONValue.integerNumber _) => true
  | _ => false

/-- The decode-error report of a shape check: nothing when the check holds,
one diagnostic with the context string when it fails. -/
def checkDiag (ok : Bool) (warningPrefix : String) : List Event :=
  if ok then [] else [Event.jsonWarning warningPrefix]

/-- The username the specification derives from an account response: the
email, else the display name, else the id. -/
def derivedUsername (o : JSONObject) : String :=
  if stringAt o "login" ≠ "" then stringAt o "login"
  else if stringAt o "name" ≠ "" then stringAt o "name"
  else stringAt o "id"

/-- The account record decoded from an account response. -/
def decodedInfo (o : JSONObject) : StorageInfo :=
  { uid := stringAt o "id", name := stringAt o "name", email := stringAt o "login",
    quotaUsed := quotaAt o "space_used", quotaAllocated := quotaAt o "space_amount" }

/-- The decode-error reports of the five field checks of the info handler. -/
def infoDiags (o : JSONObject) : List Event :=
  checkDiag (hasString o "id") "BoxStorage::infoInnerCallback" ++
  checkDiag (hasString o "name") "BoxStorage::infoInnerCallback" ++
  checkDiag (hasString o "login") "BoxStorage::infoInnerCallback" ++
  checkDiag (hasIntegerNumber o "space_amount") "BoxStorage::infoInnerCallback" ++
  checkDiag (hasIntegerNumber o "space_used") "BoxStorage::infoInnerCallback"

/-- Record several effects, in order. -/
def World.emitAll (w : World) (l : List Event) : World :=
  { w with trace := w.trace ++ l }

/-- The events of the guarded invocation of the caller's info callback. -/
def infoCallbackEvents (outerCallback : StorageInfoCallback) (info : StorageInfo) : List Event :=
  match outerCallback with
  | some cb => [Event.callStorageInfo cb { request := none, value := info },
                Event.deleteCallback cb]
  | none => []

/-- The events of `delete cb`. -/
def deleteEvents (cb : Option Callback) : List Event :=
  match cb with
  | some c => [Event.deleteCallback c]
  | none => []

/-- Whether a JSON value is an object that has the key `id`. -/
def isObjectWithId (json : JSONValue) : Bool :=
  match json with
  | JSONValue.object o => JSONObject.contains o "id"
  | _ => false

/-! ## Auxiliary lemmas -/

theorem World.emit_eq_emitAll (w : World) (e : Event) : w.emit e = w.emitAll [e] := rfl

theorem World.emitAll_nil (w : World) : w.emitAll [] = w := by
  cases w; simp [World.emitAll]

theorem World.emitAll_emitAll (w : World) (a b : List Event) :
    (w.emitAll a).emitAll b = w.emitAll (a ++ b) := by
  cases w; simp [World.emitAll]

theorem World.since_emitAll (w : World) (l : List Event) : (w.emitAll l).since w = l := by
  simp [World.since, World.emitAll]

theorem jsonContainsString_eq (o : JSONObject) (key p : String) (w : World) :
    jsonContainsString o key p w = (hasString o key, w.emitAll (checkDiag (hasString o key) p)) := by
  unfold jsonContainsString hasString checkDiag
  cases h : JSONObject.getVal o key with
  | none => simp [World.emit_eq_emitAll]
  | some v => cases v <;> simp [JSONValue.isString, World.emit_eq_emitAll, World.emitAll_nil]

theorem jsonContainsIntegerNumber_eq (o : JSONObject) (key p : String) (w : World) :
    jsonContainsIntegerNumber o key p w =
      (hasIntegerNumber o key, w.emitAll (checkDiag (hasIntegerNumber o key) p)) := by
  unfold jsonContainsIntegerNumber hasIntegerNumber checkDiag
  cases h : JSONObject.getVal o key with
  | none => simp [World.emit_eq_emitAll]
  | some v => cases v <;> simp [JSONValue.isIntegerNumber, World.emit_eq_emitAll, World.emitAll_nil]

theorem getString_of_hasString (o : JSONObject) (key : String) :
    (if hasString o key then getString o key else "") = stringAt o key := by
  unfold hasString getString stringAt
  cases h : JSONObject.getVal o key with
  | none => simp
  | some v => cases v <;> simp [JSONValue.asString]

theorem getIntegerNumber_of_hasIntegerNumber (o : JSONObject) (key : String) :
    (if hasIntegerNumber o key then toUint64 (getIntegerNumber o key) else 0) = quotaAt o key := by
  unfold hasIntegerNumber getIntegerNumber quotaAt
  cases h : JSONObject.getVal o key with
  | none => simp
  | some v => cases v <;> simp [JSONValue.asIntegerNumber]

theorem derivedUsername_eq (o : JSONObject) :
    (if ((if (stringAt o "login" == "") = true then stringAt o "name" else stringAt o "login")
          == "") = true
     then stringAt o "id"
     else if (stringAt o "login" == "") = true then stringAt o "name" else stringAt o "login")
      = derivedUsername o := by
  unfold derivedUsername
  by_cases h1 : stringAt o "login" = "" <;> by_cases h2 : stringAt o "name" = "" <;>
    simp [h1, h2]

/-- The info handler on an object, in closed form. -/
theorem infoInnerCallback_object (outerCallback : StorageInfoCallback) (request : Option Nat)
    (o : JSONObject) (w : World) :
    infoInnerCallback outerCallback ⟨request, some (JSONValue.object o)⟩ w =
      { confMan := w.confMan,
        cloudMan := w.cloudMan.setStorageUsername StorageID.kStorageBoxId (derivedUsername o),
        requests := w.requests,
        trace := w.trace ++ (infoDiags o ++ infoCallbackEvents outerCallback (decodedInfo o)
                   ++ [Event.deleteJson]) } := by
  simp only [infoInnerCallback, jsonIsObject, JSONValue.isObject, JSONValue.asObject,
    jsonContainsString_eq, jsonContainsIntegerNumber_eq, getString_of_hasString,
    getIntegerNumber_of_hasIntegerNumber, derivedUsername_eq]
  cases outerCallback <;>
    simp [World.emit, World.emitAll, infoDiags, infoCallbackEvents, decodedInfo]

theorem deleteCallback_eq (cb : Option Callback) (w : World) :
    deleteCallback cb w = w.emitAll (deleteEvents cb) := by
  cases cb <;> simp [deleteCallback, deleteEvents, World.emit_eq_emitAll, World.emitAll_nil]

/-- The info handler on a null JSON value, in closed form. -/
theorem infoInnerCallback_null (outerCallback : StorageInfoCallback) (request : Option Nat)
    (w : World) :
    infoInnerCallback outerCallback ⟨request, none⟩ w =
      w.emitAll ([Event.warning "BoxStorage::infoInnerCallback: NULL passed instead of JSON"]
        ++ deleteEvents outerCallback) := by
  simp [infoInnerCallback, deleteCallback_eq, World.emit_eq_emitAll, World.emitAll_emitAll]

/-- The info handler on a JSON value that is not an object, in closed form. -/
theorem infoInnerCallback_nonObject (outerCallback : StorageInfoCallback) (request : Option Nat)
    (json : JSONValue) (w : World) (h : json.isObject = false) :
    infoInnerCallback outerCallback ⟨request, some json⟩ w =
      w.emitAll ([Event.jsonWarning "BoxStorage::infoInnerCallback", Event.deleteJson]
        ++ deleteEvents outerCallback) := by
  simp [infoInnerCallback, jsonIsObject, h, deleteCallback_eq, World.emit_eq_emitAll,
    World.emitAll_emitAll]

/-- The create-directory handler on a null JSON value, in closed form. -/
theorem createDirectoryInnerCallback_null (outerCallback : BoolCallback) (request : Option Nat)
    (w : World) :
    createDirectoryInnerCallback outerCallback ⟨request, none⟩ w =
      w.emitAll
        ([Event.warning "BoxStorage::createDirectoryInnerCallback: NULL passed instead of JSON"]
          ++ deleteEvents outerCallback) := by
  simp [createDirectoryInnerCallback, deleteCallback_eq, World.emit_eq_emitAll,
    World.emitAll_emitAll]

/-- The create-directory handler on a JSON value with a caller callback, in
closed form. -/
theorem createDirectoryInnerCallback_some (cb : Callback) (request : Option Nat)
    (json : JSONValue) (w : World) :
    createDirectoryInnerCallback (some cb) ⟨request, some json⟩ w =
      w.emitAll (checkDiag json.isObject "BoxStorage::createDirectoryInnerCallback" ++
        [Event.callBool cb { request := none, value := isObjectWithId json },
         Event.deleteCallback cb, Event.deleteJson]) := by
  cases json <;>
    simp [createDirectoryInnerCallback, jsonIsObject, JSONValue.isObject, JSONValue.asObject,
      isObjectWithId, checkDiag, World.emit, World.emitAll]

/-- The create-directory handler on a JSON value without a caller callback,
in closed form. -/
theorem createDirectoryInnerCallback_noCallback (request : Option Nat)
    (json : JSONValue) (w : World) :
    createDirectoryInnerCallback none ⟨request, some json⟩ w = w.emitAll [Event.deleteJson] := by
  simp [createDirectoryInnerCallback, World.emit_eq_emitAll]

theorem completionCalls_checkDiag (ok : Bool) (p : String) :
    completionCalls (checkDiag ok p) = [] := by
  cases ok <;> simp [completionCalls, checkDiag, Event.isCompletionCall]

theorem errorCalls_checkDiag (ok : Bool) (p : String) :
    errorCalls (checkDiag ok p) = [] := by
  cases ok <;> simp [errorCalls, checkDiag, Event.isErrorCall]

theorem completionCalls_append (a b : List Event) :
    completionCalls (a ++ b) = completionCalls a ++ completionCalls b := by
  simp [completionCalls]

theorem errorCalls_append (a b : List Event) :
    errorCalls (a ++ b) = errorCalls a ++ errorCalls b := by
  simp [errorCalls]

theorem completionCalls_deleteEvents (cb : Option Callback) :
    completionCalls (deleteEvents cb) = [] := by
  cases cb <;> simp [completionCalls, deleteEvents, Event.isCompletionCall]

theorem errorCalls_deleteEvents (cb : Option Callback) :
    errorCalls (deleteEvents cb) = [] := by
  cases cb <;> simp [errorCalls, deleteEvents, Event.isErrorCall]

theorem completionCalls_infoDiags (o : JSONObject) : completionCalls (infoDiags o) = [] := by
  simp [infoDiags, completionCalls_append, completionCalls_checkDiag]

theorem errorCalls_infoDiags (o : JSONObject) : errorCalls (infoDiags o) = [] := by
  simp [infoDiags, errorCalls_append, errorCalls_checkDiag]

theorem isObjectWithId_iff (json : JSONValue) :
    isObjectWithId json = true ↔
      ∃ o, json = JSONValue.object o ∧ JSONObject.contains o "id" = true := by
  cases json <;> simp [isObjectWithId]

/-! ## The claims -/

/-- C1, counterexample: on the JSON value `null`, which is not an object, the
create-directory handler does report an error: it logs the decode-error
diagnostic with its context string before it invokes the caller's callback
with `false`. -/
theorem createDirectoryInnerCallback_nonObject_reports_decode_error :
    (createDirectoryInnerCallback (some (Callback.user 1)) ⟨none, some JSONValue.null⟩
        World.empty).since World.empty
      = [Event.jsonWarning "BoxStorage::createDirectoryInnerCallback",
         Event.callBool (Callback.user 1) { request := none, value := false },
         Event.deleteCallback (Callback.user 1), Event.deleteJson] := by
  decide

/-- C1, as amended: for every non-null JSON response delivered to
`createDirectoryInnerCallback` with a non-null caller callback, the callback
is invoked exactly once, with a `BoolResponse` whose value is true exactly
when the response is a JSON object that has the key `id` and false for every
other object and every other JSON shape, and no error callback is invoked.
For a JSON object nothing is reported; for a value that is not an object one
decode-error diagnostic with the context string
`BoxStorage::createDirectoryInnerCallback` is reported before the call.  The
handler does nothing else than release the callback and the response. -/
theorem createDirectoryInnerCallback_true_iff_id (cb : Callback) (request : Option Nat)
    (json : JSONValue) (w : World) :
    ∃ v : Bool,
      (v = true ↔ ∃ o, json = JSONValue.object o ∧ JSONObject.contains o "id" = true) ∧
      (createDirectoryInnerCallback (some cb) ⟨request, some json⟩ w).since w
        = (match json with
           | JSONValue.object _ => []
           | _ => [Event.jsonWarning "BoxStorage::createDirectoryInnerCallback"]) ++
          [Event.callBool cb { request := none, value := v },
           Event.deleteCallback cb, Event.deleteJson] ∧
      completionCalls ((createDirectoryInnerCallback (some cb) ⟨request, some json⟩ w).since w)
        = [Event.callBool cb { request := none, value := v }] ∧
      errorCalls ((createDirectoryInnerCallback (some cb) ⟨request, some json⟩ w).since w)
        = [] ∧
      (createDirectoryInnerCallback (some cb) ⟨request, some json⟩ w).requests = w.requests ∧
      (createDirectoryInnerCallback (some cb) ⟨request, some json⟩ w).cloudMan.usernames
        = w.cloudMan.usernames := by
  refine ⟨isObjectWithId json, isObjectWithId_iff json, ?_, ?_, ?_, ?_, ?_⟩
  · rw [createDirectoryInnerCallback_some, World.since_emitAll]
    cases json <;> simp [checkDiag, JSONValue.isObject]
  · rw [createDirectoryInnerCallback_some, World.since_emitAll, completionCalls_append,
      completionCalls_checkDiag]
    simp [completionCalls, Event.isCompletionCall]
  · rw [createDirectoryInnerCallback_some, World.since_emitAll, errorCalls_append,
      errorCalls_checkDiag]
    simp [errorCalls, Event.isErrorCall]
  · rw [createDirectoryInnerCallback_some]; rfl
  · rw [createDirectoryInnerCallback_some]; rfl

/-- C5: for every JSON object response delivered to the info handler (with or
without a caller callback), the username published to the registry under the
Box storage id is the decoded email (`login`) if it is non-empty, else the
decoded display name (`name`) if that is non-empty, else the decoded id,
where a key that is missing or whose value is not a string counts as the
empty string. -/
theorem infoInnerCallback_publishes_username (outerCallback : StorageInfoCallback)
    (request : Option Nat) (o : JSONObject) (w : World) :
    (infoInnerCallback outerCallback ⟨request, some (JSONValue.object o)⟩ w).cloudMan.usernames
        StorageID.kStorageBoxId
      = (if stringAt o "login" ≠ "" then stringAt o "login"
         else if stringAt o "name" ≠ "" then stringAt o "name"
         else stringAt o "id") ∧
    (∀ key, stringAt o key =
      match JSONObject.getVal o key with
      | some (JSONValue.string s) => s
      | _ => "") := by
  refine ⟨?_, fun _ => rfl⟩
  rw [infoInnerCallback_object]
  simp [CloudManager.setStorageUsername, derivedUsername]

/-- C4, counterexample: an integer number that is negative is not delivered
as it stands.  On the response
`{"id":"1","name":"A","login":"a@x.com","space_amount":-1,"space_used":40}`
the caller's callback receives `quotaAllocated = 18446744073709551615`, which
is not `space_amount`. -/
theorem infoInnerCallback_negative_quota_wraps :
    completionCalls
      ((infoInnerCallback (some (Callback.user 1))
          ⟨none, some (JSONValue.object
            [("id", JSONValue.string "1"), ("name", JSONValue.string "A"),
             ("login", JSONValue.string "a@x.com"),
             ("space_amount", JSONValue.integerNumber (-1)),
             ("space_used", JSONValue.integerNumber 40)])⟩
          World.empty).since World.empty)
      = [Event.callStorageInfo (Callback.user 1)
          { request := none,
            value := { uid := "1", name := "A", email := "a@x.com", quotaUsed := 40,
                       quotaAllocated := 18446744073709551615 } }] ∧
    ((18446744073709551615 : Nat) : Int) ≠ -1 := by
  decide

theorem toUint64_cast (n : Int) : ((toUint64 n : Nat) : Int) = n % 2 ^ 64 := by
  unfold toUint64
  exact Int.toNat_of_nonneg (Int.emod_nonneg n (by norm_num))

theorem stringAt_of_getVal (o : JSONObject) (key s : String)
    (h : JSONObject.getVal o key = some (JSONValue.string s)) : stringAt o key = s := by
  simp [stringAt, h]

theorem quotaAt_of_getVal (o : JSONObject) (key : String) (n : Int)
    (h : JSONObject.getVal o key = some (JSONValue.integerNumber n)) :
    quotaAt o key = toUint64 n := by
  simp [quotaAt, h]

/-- C4, as amended: for every JSON object response in which `id`, `name` and
`login` are strings and `space_amount` and `space_used` are integer numbers,
the info handler delivers to the caller's callback (once) a `StorageInfo`
whose uid, name and email are those three strings and whose `quotaAllocated`
and `quotaUsed` are `space_amount` and `space_used` reduced modulo `2^64`
(so the numbers themselves when they lie in `0 .. 2^64 - 1`), and it
publishes the email, else the name, else the id as the Box username. -/
theorem infoInnerCallback_decodes_account (cb : Callback) (request : Option Nat)
    (o : JSONObject) (w : World) (uid name login : String) (amount used : Int)
    (hid : JSONObject.getVal o "id" = some (JSONValue.string uid))
    (hname : JSONObject.getVal o "name" = some (JSONValue.string name))
    (hlogin : JSONObject.getVal o "login" = some (JSONValue.string login))
    (hamount : JSONObject.getVal o "space_amount" = some (JSONValue.integerNumber amount))
    (hused : JSONObject.getVal o "space_used" = some (JSONValue.integerNumber used)) :
    ∃ info : StorageInfo,
      completionCalls
          ((infoInnerCallback (some cb) ⟨request, some (JSONValue.object o)⟩ w).since w)
        = [Event.callStorageInfo cb { request := none, value := info }] ∧
      info.uid = uid ∧ info.name = name ∧ info.email = login ∧
      (info.quotaAllocated : Int) = amount % 2 ^ 64 ∧
      (info.quotaUsed : Int) = used % 2 ^ 64 ∧
      (0 ≤ amount ∧ amount < 2 ^ 64 → (info.quotaAllocated : Int) = amount) ∧
      (0 ≤ used ∧ used < 2 ^ 64 → (info.quotaUsed : Int) = used) ∧
      (infoInnerCallback (some cb) ⟨request, some (JSONValue.object o)⟩ w).cloudMan.usernames
          StorageID.kStorageBoxId
        = (if login ≠ "" then login else if name ≠ "" then name else uid) := by
  refine ⟨decodedInfo o, ?_, ?_, ?_, ?_, ?_, ?_, ?_, ?_, ?_⟩
  · rw [infoInnerCallback_object]
    have hs : ∀ l : List Event,
        World.since { confMan := w.confMan,
                      cloudMan := w.cloudMan.setStorageUsername StorageID.kStorageBoxId
                        (derivedUsername o),
                      requests := w.requests, trace := w.trace ++ l } w = l := by
      intro l; simp [World.since]
    rw [hs, completionCalls_append, completionCalls_append, completionCalls_infoDiags]
    simp [completionCalls, infoCallbackEvents, Event.isCompletionCall]
  · exact stringAt_of_getVal o "id" uid hid
  · exact stringAt_of_getVal o "name" name hname
  · exact stringAt_of_getVal o "login" login hlogin
  · show ((quotaAt o "space_amount" : Nat) : Int) = amount % 2 ^ 64
    rw [quotaAt_of_getVal o "space_amount" amount hamount, toUint64_cast]
  · show ((quotaAt o "space_used" : Nat) : Int) = used % 2 ^ 64
    rw [quotaAt_of_getVal o "space_used" used hused, toUint64_cast]
  · intro h
    show ((quotaAt o "space_amount" : Nat) : Int) = amount
    rw [quotaAt_of_getVal o "space_amount" amount hamount, toUint64_cast]
    exact Int.emod_eq_of_lt h.1 h.2
  · intro h
    show ((quotaAt o "space_used" : Nat) : Int) = used
    rw [quotaAt_of_getVal o "space_used" used hused, toUint64_cast]
    exact Int.emod_eq_of_lt h.1 h.2
  · rw [infoInnerCallback_object]
    simp [CloudManager.setStorageUsername, derivedUsername,
      stringAt_of_getVal o "id" uid hid, stringAt_of_getVal o "name" name hname,
      stringAt_of_getVal o "login" login hlogin]

/-- C4, witness: the specification's example response
`{"id":"1","name":"A","login":"a@x.com","space_amount":100,"space_used":40}`
satisfies the hypotheses and yields `quotaAllocated = 100`, `quotaUsed = 40`
and the published username `a@x.com`. -/
theorem infoInnerCallback_decodes_account_witness :
    JSONObject.getVal exampleInfoJson "id" = some (JSONValue.string "1") ∧
    JSONObject.getVal exampleInfoJson "space_amount" = some (JSONValue.integerNumber 100) ∧
    ∃ info : StorageInfo,
      completionCalls
          ((infoInnerCallback (some (Callback.user 1))
              ⟨none, some (JSONValue.object exampleInfoJson)⟩ World.empty).since World.empty)
        = [Event.callStorageInfo (Callback.user 1) { request := none, value := info }] ∧
      info.uid = "1" ∧ info.name = "A" ∧ info.email = "a@x.com" ∧
      info.quotaAllocated = 100 ∧ info.quotaUsed = 40 ∧
      (infoInnerCallback (some (Callback.user 1))
          ⟨none, some (JSONValue.object exampleInfoJson)⟩ World.empty).cloudMan.usernames
          StorageID.kStorageBoxId = "a@x.com" := by
  obtain ⟨info, h1, h2, h3, h4, _, _, h7, h8, h9⟩ :=
    infoInnerCallback_decodes_account (Callback.user 1) none exampleInfoJson World.empty
      "1" "A" "a@x.com" 100 40 rfl rfl rfl rfl rfl
  refine ⟨rfl, rfl, info, h1, h2, h3, h4, ?_, ?_, ?_⟩
  · exact Int.ofNat_inj.mp (h7 (by decide))
  · exact Int.ofNat_inj.mp (h8 (by decide))
  · rw [h9]; decide

/-- C6, counterexample: a malformed response does reach the caller's
callback.  The create-directory handler invokes it (with `false`) on the JSON
value `null`, which is not an object, and the info handler invokes it (with
an empty record) on the object `{}`, which misses every expected key. -/
theorem malformed_response_invokes_callback :
    completionCalls
        ((createDirectoryInnerCallback (some (Callback.user 1)) ⟨none, some JSONValue.null⟩
            World.empty).since World.empty)
      = [Event.callBool (Callback.user 1) { request := none, value := false }] ∧
    completionCalls
        ((infoInnerCallback (some (Callback.user 1)) ⟨none, some (JSONValue.object [])⟩
            World.empty).since World.empty)
      = [Event.callStorageInfo (Callback.user 1)
          { request := none,
            value := { uid := "", name := "", email := "", quotaUsed := 0,
                       quotaAllocated := 0 } }] := by
  decide

/-- C6, as amended: for every JSON value that is not an object delivered to
the info completion handler, the adapter takes the decode-error path (one
diagnostic with the context string `BoxStorage::infoInnerCallback`, the
response and the caller's callback released, nothing published) and never
invokes the caller's callback.  The create-directory handler reports the same
diagnostic for a value that is not an object but still invokes the caller's
callback, with `false`; and an object that misses expected keys gets one
diagnostic for each failed field check of the info handler while the caller's
callback is still invoked, with the missing fields empty or zero. -/
theorem infoInnerCallback_nonObject_decode_error (outerCallback : StorageInfoCallback)
    (cb : Callback) (request : Option Nat) (json : JSONValue) (w : World)
    (h : json.isObject = false) :
    (infoInnerCallback outerCallback ⟨request, some json⟩ w).since w
        = [Event.jsonWarning "BoxStorage::infoInnerCallback", Event.deleteJson]
            ++ deleteEvents outerCallback ∧
    completionCalls ((infoInnerCallback outerCallback ⟨request, some json⟩ w).since w) = [] ∧
    (infoInnerCallback outerCallback ⟨request, some json⟩ w).cloudMan.usernames
        = w.cloudMan.usernames ∧
    (createDirectoryInnerCallback (some cb) ⟨request, some json⟩ w).since w
        = [Event.jsonWarning "BoxStorage::createDirectoryInnerCallback",
           Event.callBool cb { request := none, value := false },
           Event.deleteCallback cb, Event.deleteJson] ∧
    (∀ o : JSONObject,
      (infoInnerCallback (some cb) ⟨request, some (JSONValue.object o)⟩ w).since w
        = infoDiags o ++
            [Event.callStorageInfo cb { request := none, value := decodedInfo o },
             Event.deleteCallback cb, Event.deleteJson]) := by
  refine ⟨?_, ?_, ?_, ?_, ?_⟩
  · rw [infoInnerCallback_nonObject _ _ _ _ h, World.since_emitAll]
  · rw [infoInnerCallback_nonObject _ _ _ _ h, World.since_emitAll, completionCalls_append,
      completionCalls_deleteEvents]
    simp [completionCalls, Event.isCompletionCall]
  · rw [infoInnerCallback_nonObject _ _ _ _ h]
    rfl
  · rw [createDirectoryInnerCallback_some, World.since_emitAll]
    cases json <;> simp_all [JSONValue.isObject, isObjectWithId, checkDiag]
  · intro o
    rw [infoInnerCallback_object]
    simp [World.since, infoCallbackEvents]

/-- C6, witness: the JSON string `"oops"` is not an object; the info handler
reports the decode error, releases the response and the callback, and does
not invoke the callback. -/
theorem infoInnerCallback_nonObject_decode_error_witness :
    (JSONValue.string "oops").isObject = false ∧
    (infoInnerCallback (some (Callback.user 1)) ⟨none, some (JSONValue.string "oops")⟩
        World.empty).since World.empty
      = [Event.jsonWarning "BoxStorage::infoInnerCallback", Event.deleteJson,
         Event.deleteCallback (Callback.user 1)] ∧
    completionCalls
      ((infoInnerCallback (some (Callback.user 1)) ⟨none, some (JSONValue.string "oops")⟩
          World.empty).since World.empty) = [] :=
  ⟨rfl,
   (infoInnerCallback_nonObject_decode_error (some (Callback.user 1)) (Callback.user 1) none
      (JSONValue.string "oops") World.empty rfl).1,
   (infoInnerCallback_nonObject_decode_error (some (Callback.user 1)) (Callback.user 1) none
      (JSONValue.string "oops") World.empty rfl).2.1⟩

/-- C7, counterexample: on a null JSON value the info handler of a request
with the completion callback `Callback.user 1` invokes neither the completion
callback nor the error callback; it only warns and releases the callback.
The same holds for the create-directory handler, and for the info handler on
the non-object value `null`. -/
theorem null_response_invokes_no_callback :
    (JsonCallback.call (JsonCallback.infoBridge (some (Callback.user 1))) ⟨none, none⟩
        World.empty).since World.empty
      = [Event.warning "BoxStorage::infoInnerCallback: NULL passed instead of JSON",
         Event.deleteCallback (Callback.user 1)] ∧
    (completionCalls
        ((JsonCallback.call (JsonCallback.infoBridge (some (Callback.user 1))) ⟨none, none⟩
            World.empty).since World.empty)
      ++ errorCalls
        ((JsonCallback.call (JsonCallback.infoBridge (some (Callback.user 1))) ⟨none, none⟩
            World.empty).since World.empty)).length = 0 ∧
    (completionCalls
        ((JsonCallback.call (JsonCallback.createDirectoryBridge (some (Callback.user 1)))
            ⟨none, none⟩ World.empty).since World.empty)
      ++ errorCalls
        ((JsonCallback.call (JsonCallback.createDirectoryBridge (some (Callback.user 1)))
            ⟨none, none⟩ World.empty).since World.empty)).length = 0 ∧
    (completionCalls
        ((JsonCallback.call (JsonCallback.infoBridge (some (Callback.user 1)))
            ⟨none, some JSONValue.null⟩ World.empty).since World.empty)
      ++ errorCalls
        ((JsonCallback.call (JsonCallback.infoBridge (some (Callback.user 1)))
            ⟨none, some JSONValue.null⟩ World.empty).since World.empty)).length = 0 := by
  decide

theorem since_mk_append (w : World) (c : ConfigManager) (m : CloudManager)
    (r : List CurlJsonRequest) (l : List Event) :
    World.since { confMan := c, cloudMan := m, requests := r, trace := w.trace ++ l } w = l := by
  simp [World.since]

/-- The completion calls of the info handler. -/
theorem infoBridge_calls (callback : Option Callback) (request : Option Nat)
    (value : Option JSONValue) (w : World) :
    completionCalls (((JsonCallback.infoBridge callback).call ⟨request, value⟩ w).since w)
        = (match callback, value with
           | some cb, some (JSONValue.object o) =>
             [Event.callStorageInfo cb { request := none, value := decodedInfo o }]
           | _, _ => []) ∧
    errorCalls (((JsonCallback.infoBridge callback).call ⟨request, value⟩ w).since w) = [] := by
  cases value with
  | none =>
    simp only [JsonCallback.call, infoInnerCallback_null, World.since_emitAll,
      completionCalls_append, errorCalls_append, completionCalls_deleteEvents,
      errorCalls_deleteEvents]
    cases callback <;>
      simp [completionCalls, errorCalls, Event.isCompletionCall, Event.isErrorCall]
  | some json =>
    cases hobj : json.isObject with
    | false =>
      simp only [JsonCallback.call, infoInnerCallback_nonObject _ _ _ _ hobj,
        World.since_emitAll, completionCalls_append, errorCalls_append,
        completionCalls_deleteEvents, errorCalls_deleteEvents]
      cases callback <;> cases json <;>
        simp_all [completionCalls, errorCalls, Event.isCompletionCall, Event.isErrorCall,
          JSONValue.isObject]
    | true =>
      cases json <;> simp [JSONValue.isObject] at hobj
      simp only [JsonCallback.call, infoInnerCallback_object, since_mk_append,
        completionCalls_append, errorCalls_append, completionCalls_infoDiags,
        errorCalls_infoDiags]
      cases callback <;>
        simp [completionCalls, errorCalls, Event.isCompletionCall, Event.isErrorCall,
          infoCallbackEvents]

/-- The completion calls of the create-directory handler. -/
theorem createDirectoryBridge_calls (callback : Option Callback) (request : Option Nat)
    (value : Option JSONValue) (w : World) :
    completionCalls
        (((JsonCallback.createDirectoryBridge callback).call ⟨request, value⟩ w).since w)
        = (match callback, value with
           | some cb, some json =>
             [Event.callBool cb { request := none, value := isObjectWithId json }]
           | _, _ => []) ∧
    errorCalls
        (((JsonCallback.createDirectoryBridge callback).call ⟨request, value⟩ w).since w)
        = [] := by
  cases value with
  | none =>
    simp only [JsonCallback.call, createDirectoryInnerCallback_null, World.since_emitAll,
      completionCalls_append, errorCalls_append, completionCalls_deleteEvents,
      errorCalls_deleteEvents]
    cases callback <;>
      simp [completionCalls, errorCalls, Event.isCompletionCall, Event.isErrorCall]
  | some json =>
    cases callback with
    | none =>
      simp [JsonCallback.call, createDirectoryInnerCallback_noCallback, World.since_emitAll,
        completionCalls, errorCalls, Event.isCompletionCall, Event.isErrorCall]
    | some cb =>
      simp only [JsonCallback.call, createDirectoryInnerCallback_some, World.since_emitAll,
        completionCalls_append, errorCalls_append, completionCalls_checkDiag,
        errorCalls_checkDiag]
      simp [completionCalls, errorCalls, Event.isCompletionCall, Event.isErrorCall]

/-- C7, as amended: the requests submitted by `info` and by
`createDirectoryWithParentId` carry the info and the create-directory
completion handler bound to the caller's completion callback; and for every
response delivered to such a handler, the handler never invokes an error
callback, and it invokes the caller's completion callback, that callback and
no other, exactly once when it is non-null, the JSON value is non-null and
(for the info handler) the value is an object, and not at all otherwise: on a
null JSON value, on a non-object value delivered to the info handler, or with
a null completion callback, no callback is invoked.  On a null JSON value the
handler only warns and releases the completion callback. -/
theorem completion_handler_invocations (stringify : JSONValue → String) (self : BoxStorage)
    (parentId directoryName : String) (callback errorCallback : Option Callback)
    (request : Option Nat) (value : Option JSONValue) (w w2 : World) :
    (Option.map CurlJsonRequest.jsonCallback (self.info callback errorCallback w).1
        = some (JsonCallback.infoBridge callback)) ∧
    (Option.map CurlJsonRequest.jsonCallback
        (self.createDirectoryWithParentId stringify parentId directoryName callback
          errorCallback w).1
        = some (JsonCallback.createDirectoryBridge callback)) ∧
    (completionCalls
        (((JsonCallback.infoBridge callback).call ⟨request, value⟩ w2).since w2)
        = (match callback, value with
           | some cb, some (JSONValue.object o) =>
             [Event.callStorageInfo cb { request := none, value := decodedInfo o }]
           | _, _ => [])) ∧
    errorCalls (((JsonCallback.infoBridge callback).call ⟨request, value⟩ w2).since w2)
        = [] ∧
    (completionCalls
        (((JsonCallback.createDirectoryBridge callback).call ⟨request, value⟩ w2).since w2)
        = (match callback, value with
           | some cb, some json =>
             [Event.callBool cb { request := none, value := isObjectWithId json }]
           | _, _ => [])) ∧
    errorCalls
        (((JsonCallback.createDirectoryBridge callback).call ⟨request, value⟩ w2).since w2)
        = [] ∧
    ((JsonCallback.infoBridge callback).call ⟨request, none⟩ w2).since w2
        = [Event.warning "BoxStorage::infoInnerCallback: NULL passed instead of JSON"]
            ++ deleteEvents callback ∧
    ((JsonCallback.createDirectoryBridge callback).call ⟨request, none⟩ w2).since w2
        = [Event.warning "BoxStorage::createDirectoryInnerCallback: NULL passed instead of JSON"]
            ++ deleteEvents callback := by
  refine ⟨rfl, rfl, (infoBridge_calls callback request value w2).1,
    (infoBridge_calls callback request value w2).2,
    (createDirectoryBridge_calls callback request value w2).1,
    (createDirectoryBridge_calls callback request value w2).2, ?_, ?_⟩
  · simp only [JsonCallback.call, infoInnerCallback_null, World.since_emitAll]
  · simp only [JsonCallback.call, createDirectoryInnerCallback_null, World.since_emitAll]

theorem c_str_data (s : String) :
    (c_str s).data = s.data.takeWhile (fun c => c != Char.ofNat 0) := rfl

/-- A string without a NUL character is its own C string. -/
theorem c_str_eq_self (s : String) (h : Char.ofNat 0 ∉ s.data) : c_str s = s := by
  apply String.ext
  rw [c_str_data, List.takeWhile_eq_self_iff]
  intro x hx
  have hne : x ≠ Char.ofNat 0 := fun he => h (he ▸ hx)
  simpa using hne

/-- A C string has no NUL character. -/
theorem c_str_no_nul (s : String) : Char.ofNat 0 ∉ (c_str s).data := by
  intro hmem
  rw [c_str_data] at hmem
  have hp := List.mem_takeWhile_imp hmem
  simp at hp

theorem c_str_idem (s : String) : c_str (c_str s) = c_str s :=
  c_str_eq_self _ (c_str_no_nul s)

/-- Reading a C string goes through a NUL-free first part. -/
theorem c_str_append (a b : String) (h : Char.ofNat 0 ∉ a.data) :
    c_str (a ++ b) = a ++ c_str b := by
  apply String.ext
  rw [c_str_data, String.data_append, String.data_append, c_str_data]
  apply List.takeWhile_append_of_pos
  intro x hx
  have hne : x ≠ Char.ofNat 0 := fun he => h (he ▸ hx)
  simpa using hne

/-- The URL the stream is opened on has no NUL character left. -/
theorem c_str_url (id : String) :
    c_str (BOX_API_FILES_CONTENT (c_str id))
      = "https://api.box.com/2.0/files/" ++ c_str id ++ "/content" := by
  unfold BOX_API_FILES_CONTENT
  rw [c_str_idem]
  apply c_str_eq_self
  intro hmem
  simp only [String.data_append, List.mem_append] at hmem
  rcases hmem with (h | h) | h
  · revert h; decide
  · exact c_str_no_nul id h
  · revert h; decide

theorem c_str_header (token : String) :
    c_str ("Authorization: Bearer " ++ token) = "Authorization: Bearer " ++ c_str token :=
  c_str_append _ _ (by decide)

/-- The read-stream download, in closed form. -/
theorem streamFileById_eq (self : BoxStorage) (id : String)
    (callback : NetworkReadStreamCallback) (errorCallback : ErrorCallback) (w : World) :
    self.streamFileById id callback errorCallback w =
      (none, w.emitAll
        ((match callback with
          | some cb =>
            [Event.openStream
               { url := "https://api.box.com/2.0/files/" ++ c_str id ++ "/content",
                 headersList := ["Authorization: Bearer " ++ c_str self._token],
                 postFields := "" },
             Event.callStream cb
               { request := none,
                 value :=
                   { url := "https://api.box.com/2.0/files/" ++ c_str id ++ "/content",
                     headersList := ["Authorization: Bearer " ++ c_str self._token],
                     postFields := "" } }]
          | none => []) ++
          deleteEvents callback ++ deleteEvents errorCallback)) := by
  cases callback <;>
    simp [BoxStorage.streamFileById, c_str_url, c_str_header, deleteCallback_eq,
      World.emit_eq_emitAll, World.emitAll_emitAll]

/-- C10, counterexample: a file id with an embedded NUL character is cut at
that character when it is formatted through `%s`.  For the id `a\x00b` the
stream is opened on `https://api.box.com/2.0/files/a/content`, which is not
`https://api.box.com/2.0/files/` + id + `/content`. -/
theorem streamFileById_cuts_id_at_nul :
    completionCalls
        ((BoxStorage.streamFileById exampleStorage "a\x00b" (some (Callback.user 1)) none
            World.empty).2.since World.empty)
      = [Event.callStream (Callback.user 1)
           { request := none,
             value := { url := "https://api.box.com/2.0/files/a/content",
                        headersList := ["Authorization: Bearer tok"], postFields := "" } }] ∧
    "https://api.box.com/2.0/files/a/content"
      ≠ "https://api.box.com/2.0/files/" ++ "a\x00b" ++ "/content" := by
  decide

/-- C10, as amended: for every file id and every non-null stream callback,
`streamFileById(id)` invokes the callback exactly once, with a read stream
opened on `https://api.box.com/2.0/files/` + id + `/content` whose only header
is `Authorization: Bearer ` + the adapter's current access token, where the
id and the token are read as C strings, that is up to their first NUL
character (so they are the whole id and the whole token when these contain no
NUL character); it registers no request, never invokes the error callback and
returns a null handle.  With a null stream callback it opens no stream and
invokes nothing: its only effect is to release the error callback. -/
theorem streamFileById_direct_stream (self : BoxStorage) (id : String)
    (errorCallback : ErrorCallback) (w : World) :
    (∀ cb : Callback,
      (self.streamFileById id (some cb) errorCallback w).1 = none ∧
      (self.streamFileById id (some cb) errorCallback w).2.requests = w.requests ∧
      (self.streamFileById id (some cb) errorCallback w).2.since w
        = [Event.openStream
             { url := "https://api.box.com/2.0/files/" ++ c_str id ++ "/content",
               headersList := ["Authorization: Bearer " ++ c_str self._token],
               postFields := "" },
           Event.callStream cb
             { request := none,
               value :=
                 { url := "https://api.box.com/2.0/files/" ++ c_str id ++ "/content",
                   headersList := ["Authorization: Bearer " ++ c_str self._token],
                   postFields := "" } },
           Event.deleteCallback cb] ++ deleteEvents errorCallback ∧
      completionCalls ((self.streamFileById id (some cb) errorCallback w).2.since w)
        = [Event.callStream cb
             { request := none,
               value :=
                 { url := "https://api.box.com/2.0/files/" ++ c_str id ++ "/content",
                   headersList := ["Authorization: Bearer " ++ c_str self._token],
                   postFields := "" } }] ∧
      errorCalls ((self.streamFileById id (some cb) errorCallback w).2.since w) = [] ∧
      (Char.ofNat 0 ∉ id.data → Char.ofNat 0 ∉ self._token.data →
        completionCalls ((self.streamFileById id (some cb) errorCallback w).2.since w)
          = [Event.callStream cb
               { request := none,
                 value :=
                   { url := "https://api.box.com/2.0/files/" ++ id ++ "/content",
                     headersList := ["Authorization: Bearer " ++ self._token],
                     postFields := "" } }])) ∧
    ((self.streamFileById id none errorCallback w).1 = none ∧
      (self.streamFileById id none errorCallback w).2.requests = w.requests ∧
      (self.streamFileById id none errorCallback w).2.since w = deleteEvents errorCallback) ∧
    (∀ s : String, (c_str s).data = s.data.takeWhile (fun c => c != Char.ofNat 0)) := by
  refine ⟨fun cb => ⟨?_, ?_, ?_, ?_, ?_, ?_⟩, ⟨?_, ?_, ?_⟩, fun _ => rfl⟩
  case refine_6 =>
    intro hid htok
    simp only [streamFileById_eq, World.since_emitAll, completionCalls_append,
      completionCalls_deleteEvents, c_str_eq_self id hid, c_str_eq_self _ htok]
    simp [completionCalls, Event.isCompletionCall]
  all_goals
    simp only [streamFileById_eq, World.since_emitAll, errorCalls_append,
      completionCalls_append, errorCalls_deleteEvents, completionCalls_deleteEvents]
    try simp [World.emitAll, errorCalls, completionCalls, Event.isErrorCall,
      Event.isCompletionCall, deleteEvents]

/-- C10, witness: for the id `42` and the token `tok`, which have no NUL
character, the stream is opened on `https://api.box.com/2.0/files/42/content`
with the single header `Authorization: Bearer tok`. -/
theorem streamFileById_direct_stream_witness :
    completionCalls
        ((BoxStorage.streamFileById exampleStorage "42" (some (Callback.user 1)) none
            World.empty).2.since World.empty)
      = [Event.callStream (Callback.user 1)
           { request := none,
             value := { url := "https://api.box.com/2.0/files/" ++ "42" ++ "/content",
                        headersList := ["Authorization: Bearer " ++ exampleStorage._token],
                        postFields := "" } }] :=
  ((streamFileById_direct_stream exampleStorage "42" none World.empty).1
      (Callback.user 1)).2.2.2.2.2 (by decide) (by decide)

/-- C9: for every parent id and directory name, `createDirectoryWithParentId`
registers and returns one request whose URL is
`https://api.box.com/2.0/folders`, whose headers are exactly
`Authorization: Bearer <current access token>` and
`Content-Type: application/json`, and whose POST body is the serialisation of
the JSON object `{"name": directoryName, "parent": {"id": parentId}}`, which
has no other key. -/
theorem createDirectoryWithParentId_request (stringify : JSONValue → String)
    (self : BoxStorage) (parentId directoryName : String) (callback : BoolCallback)
    (errorCallback : ErrorCallback) (w : World) :
    ∃ r : CurlJsonRequest,
      (self.createDirectoryWithParentId stringify parentId directoryName callback
          errorCallback w).1 = some r ∧
      (self.createDirectoryWithParentId stringify parentId directoryName callback
          errorCallback w).2.requests = w.requests ++ [r] ∧
      r.url = "https://api.box.com/2.0/folders" ∧
      r.headers = ["Authorization: Bearer " ++ self.accessToken,
                   "Content-Type: application/json"] ∧
      r.postFields = stringify (JSONValue.object
        [("name", JSONValue.string directoryName),
         ("parent", JSONValue.object [("id", JSONValue.string parentId)])]) := by
  refine ⟨_, rfl, rfl, rfl, rfl, ?_⟩
  simp [CurlJsonRequest.addPostField, CurlJsonRequest.addHeader, BoxTokenRefresher,
    JSONObject.setVal, JSONObject.contains]

/-- Two keys under one prefix differ when their names differ. -/
theorem prefixed_key_ne (keyPrefix a b : String) (h : a ≠ b) : keyPrefix ++ a ≠ keyPrefix ++ b := by
  intro heq
  apply h
  have hd := congrArg String.data heq
  simp only [String.data_append] at hd
  exact String.ext (List.append_cancel_left hd)

/-- C2: for every key prefix and every configuration state,
`loadFromConfig(prefix)` returns null exactly when the cloud configuration
domain lacks the key prefix + `access_token` or lacks the key prefix +
`refresh_token`; otherwise it returns an adapter whose access token and
refresh token are the values stored under those two keys. -/
theorem loadFromConfig_null_iff (keyPrefix : String) (w : World) :
    ((loadFromConfig keyPrefix w).1 = none ↔
      (w.confMan.domains kCloudDomain (keyPrefix ++ "access_token") = none ∨
       w.confMan.domains kCloudDomain (keyPrefix ++ "refresh_token") = none)) ∧
    (∀ s : BoxStorage, (loadFromConfig keyPrefix w).1 = some s →
      w.confMan.domains kCloudDomain (keyPrefix ++ "access_token") = some s._token ∧
      w.confMan.domains kCloudDomain (keyPrefix ++ "refresh_token") = some s._refreshToken) := by
  unfold loadFromConfig ConfigManager.hasKey ConfigManager.get
  cases ha : w.confMan.domains kCloudDomain (keyPrefix ++ "access_token") with
  | none => simp
  | some a =>
    cases hr : w.confMan.domains kCloudDomain (keyPrefix ++ "refresh_token") with
    | none => simp
    | some r =>
      simp only [Option.isSome_some, Bool.not_true, Bool.false_eq_true, if_false,
        Option.getD_some]
      refine ⟨by simp, ?_⟩
      intro s hs
      cases hs
      exact ⟨rfl, rfl⟩

/-- C2, witness: in the configuration that `exampleStorage` saved under the
prefix `box_`, `loadFromConfig` returns the adapter with the two stored
tokens. -/
theorem loadFromConfig_null_iff_witness :
    (loadFromConfig "box_" (BoxStorage.saveConfig exampleStorage "box_" World.empty)).1
      = some exampleStorage ∧
    (BoxStorage.saveConfig exampleStorage "box_" World.empty).confMan.domains kCloudDomain
        ("box_" ++ "access_token") = some "tok" ∧
    (BoxStorage.saveConfig exampleStorage "box_" World.empty).confMan.domains kCloudDomain
        ("box_" ++ "refresh_token") = some "ref" :=
  ⟨by decide,
   (loadFromConfig_null_iff "box_" (BoxStorage.saveConfig exampleStorage "box_" World.empty)).2
      exampleStorage (by decide)⟩

/-- C8: round trip of the persisted credentials.  For every adapter, key
prefix `p` and configuration state, `saveConfig(p)` followed by
`loadFromConfig(p)` returns a non-null adapter with the same access token and
the same refresh token; and `removeFromConfig(p)` followed by
`loadFromConfig(p)` returns null. -/
theorem saveConfig_loadFromConfig_roundtrip (self : BoxStorage) (keyPrefix : String)
    (w : World) :
    (∃ s : BoxStorage,
      (loadFromConfig keyPrefix (self.saveConfig keyPrefix w)).1 = some s ∧
      s._token = self._token ∧ s._refreshToken = self._refreshToken) ∧
    (loadFromConfig keyPrefix (removeFromConfig keyPrefix w)).1 = none := by
  have h1 : keyPrefix ++ "access_token" ≠ keyPrefix ++ "refresh_token" :=
    prefixed_key_ne keyPrefix _ _ (by decide)
  have h2 : keyPrefix ++ "access_token" ≠ keyPrefix ++ "enabled" :=
    prefixed_key_ne keyPrefix _ _ (by decide)
  have h3 : keyPrefix ++ "refresh_token" ≠ keyPrefix ++ "enabled" :=
    prefixed_key_ne keyPrefix _ _ (by decide)
  constructor
  · refine ⟨{ _token := self._token, _refreshToken := self._refreshToken,
              _isEnabled := loadIsEnabledFlag keyPrefix (self.saveConfig keyPrefix w) }, ?_,
            rfl, rfl⟩
    simp [loadFromConfig, BoxStorage.saveConfig, BoxStorage.saveIsEnabledFlag,
      ConfigManager.hasKey, ConfigManager.get, ConfigManager.set, h1, h2, h3]
  · simp [loadFromConfig, removeFromConfig, removeIsEnabledFlag, ConfigManager.hasKey,
      ConfigManager.removeKey, h2]

end Box
end Cloud
